import Mathlib

/-!
Verification of the Channel Streaming Core of the tunarr repository.

The definitions below are shallow embeddings of the TypeScript source:

* `getCurrentProgramAndTimeElapsed`, `createLineup`,
  `pickRandomWithMaxDuration`, `norm_d`, `norm_s`, `getWatermark`
  from the helper-function module (src/unnamed/part_004);
* the ffmpeg process wrapper (`spawn` argument construction, `spawnError`,
  and the exit-code handler) from src/server/src/ffmpeg.ts;
* the redirect-following loop of `VideoStream.startStream` from
  src/server/src/stream/VideoStream.ts.

JavaScript numbers are modelled as `Nat`/`Int`/`Rat` (all the quantities
involved are exact integers or exact decimal fractions, except where noted);
the Mersenne-Twister randomness is modelled as an explicit stream of draws;
`Date.now()` and the playback cache are explicit parameters; a thrown
exception is modelled as `Option.none`.
-/

/-- `constants.SLACK` (9900 ms). -/
def SLACK : Nat := 9900

/-- A program of a channel lineup, as consumed by the helper functions:
only the fields the embedded functions read. `err` models the optional
`Error` field carried by error placeholder programs. -/
structure ChanProgram where
  duration : Nat
  isOffline : Bool := false
  err : Option String := none
  title : String := ""
  key : String := ""
  plexFile : String := ""
  file : String := ""
  ratingKey : String := ""
  serverKey : String := ""
deriving Repr, DecidableEq

/-- `offlineProgram(duration)` from dao/db: a flex program of the given length. -/
def offlineProgram (d : Nat) : ChanProgram :=
  { duration := d, isOffline := true }

/-- The channel fields read by `getCurrentProgramAndTimeElapsed`. -/
structure ResolverChannel where
  startTime : Nat
  duration : Nat
  programs : List ChanProgram
deriving Repr, DecidableEq

/-- Result record of the resolver (`ProgramAndTimeElapsed` in the source).
`programIndex` is an `Int` because the source uses `-1` for the
before-start flex case. -/
structure ProgramAndTimeElapsed where
  program : ChanProgram
  timeElapsed : Nat
  programIndex : Int
deriving Repr, DecidableEq

/-- The `for` loop of `getCurrentProgramAndTimeElapsed`: walk the programs,
subtracting durations from `timeElapsed` until it falls inside program `y`;
apply boundary smoothing there.  Returns `(timeElapsed, index)`;
`none` models falling off the end (the source then throws). -/
def findProgramLoop (programs : List ChanProgram) (n : Nat)
    (timeElapsed : Nat) (y : Nat) : Option (Nat × Nat) :=
  match programs with
  | [] => none
  | p :: rest =>
    if timeElapsed < p.duration then
      if 2 * SLACK < p.duration ∧ p.duration - SLACK < timeElapsed then
        some (0, (y + 1) % n)
      else
        some (timeElapsed, y)
    else
      findProgramLoop rest n (timeElapsed - p.duration) (y + 1)

/-- `getCurrentProgramAndTimeElapsed(date, channel)` from the helper module.
`none` models the `throw` on an unlocatable program. -/
def getCurrentProgramAndTimeElapsed (date : Nat) (channel : ResolverChannel) :
    Option ProgramAndTimeElapsed :=
  if date < channel.startTime then
    some { program := offlineProgram (channel.startTime - date)
           timeElapsed := 0
           programIndex := -1 }
  else
    let timeElapsed := (date - channel.startTime) % channel.duration
    match findProgramLoop channel.programs channel.programs.length timeElapsed 0 with
    | none => none
    | some (te, idx) =>
      some { program := channel.programs.getD idx (offlineProgram 0)
             timeElapsed := te
             programIndex := (idx : Int) }

/-- Sum of the durations of the first `i` lineup programs. -/
def prefixDur (ps : List ChanProgram) (i : Nat) : Nat :=
  ((ps.take i).map (·.duration)).sum

theorem prefixDur_nil (i : Nat) : prefixDur [] i = 0 := by
  simp [prefixDur]

theorem prefixDur_cons_zero (p : ChanProgram) (rest : List ChanProgram) :
    prefixDur (p :: rest) 0 = 0 := by
  simp [prefixDur]

theorem prefixDur_cons_succ (p : ChanProgram) (rest : List ChanProgram) (i : Nat) :
    prefixDur (p :: rest) (i + 1) = p.duration + prefixDur rest i := by
  simp [prefixDur]

/-- Characterisation of the resolver walk: if the elapsed time `te` falls
inside program `i` (the running total first exceeds `te` at index `i`),
the loop stops there, applying boundary smoothing. -/
theorem findProgramLoop_eq (ps : List ChanProgram) (n : Nat) (te : Nat)
    (y : Nat) (i : Nat)
    (h1 : prefixDur ps i ≤ te) (h2 : te < prefixDur ps (i + 1)) :
    findProgramLoop ps n te y =
      (let p := ps.getD i (offlineProgram 0)
       let t := te - prefixDur ps i
       if 2 * SLACK < p.duration ∧ p.duration - SLACK < t then
         some (0, (y + i + 1) % n)
       else
         some (t, y + i)) := by
  induction ps generalizing te y i with
  | nil =>
    exact absurd (h1.trans_lt h2) (by simp [prefixDur_nil])
  | cons p rest ih =>
    cases i with
    | zero =>
      have hlt : te < p.duration := by
        simpa [prefixDur_cons_succ, prefixDur_cons_zero] using h2
      simp [findProgramLoop, hlt, prefixDur_cons_zero]
    | succ i =>
      have hge : p.duration ≤ te := by
        have := h1
        rw [prefixDur_cons_succ] at this
        omega
      have h1' : prefixDur rest i ≤ te - p.duration := by
        rw [prefixDur_cons_succ] at h1; omega
      have h2' : te - p.duration < prefixDur rest (i + 1) := by
        rw [prefixDur_cons_succ] at h2; omega
      have hrec := ih (te - p.duration) (y + 1) i h1' h2'
      have hnot : ¬ te < p.duration := by omega
      have hidx : (p :: rest).getD (i + 1) (offlineProgram 0) =
          rest.getD i (offlineProgram 0) := by simp
      have ht : te - p.duration - prefixDur rest i =
          te - prefixDur (p :: rest) (i + 1) := by
        rw [prefixDur_cons_succ] at h1 ⊢; omega
      simp only [findProgramLoop, if_neg hnot]
      rw [hrec]
      simp only [hidx, ht]
      have hy1 : y + 1 + i = y + (i + 1) := by omega
      rw [hy1]

/-- C1: for a channel whose programs exactly fill `channel.duration`,
resolving at `now ≥ startTime` computes `elapsed = (now − startTime) mod
duration`, finds the index `i` at which the running duration total first
exceeds `elapsed`, and returns `(programs[i], elapsed − prefix i, i)` —
except that when `programs[i].duration > 2·SLACK` and the time into the
item exceeds `duration − SLACK`, it returns `((i+1) mod N, 0)` instead. -/
theorem resolver_walk_correct (channel : ResolverChannel) (now i : Nat)
    (hstart : channel.startTime ≤ now)
    (hdur : 0 < channel.duration)
    (h1 : prefixDur channel.programs i ≤ (now - channel.startTime) % channel.duration)
    (h2 : (now - channel.startTime) % channel.duration <
      prefixDur channel.programs (i + 1)) :
    getCurrentProgramAndTimeElapsed now channel =
      (let elapsed := (now - channel.startTime) % channel.duration
       let p := channel.programs.getD i (offlineProgram 0)
       let t := elapsed - prefixDur channel.programs i
       if 2 * SLACK < p.duration ∧ p.duration - SLACK < t then
         some { program :=
                  channel.programs.getD ((i + 1) % channel.programs.length)
                    (offlineProgram 0)
                timeElapsed := 0
                programIndex := (((i + 1) % channel.programs.length : Nat) : Int) }
       else
         some { program := p, timeElapsed := t, programIndex := (i : Int) }) := by
  have hnot : ¬ now < channel.startTime := by omega
  simp only [getCurrentProgramAndTimeElapsed, if_neg hnot]
  rw [findProgramLoop_eq channel.programs channel.programs.length
    ((now - channel.startTime) % channel.duration) 0 i h1 h2]
  by_cases hc : 2 * SLACK <
      (channel.programs.getD i (offlineProgram 0)).duration ∧
      (channel.programs.getD i (offlineProgram 0)).duration - SLACK <
        (now - channel.startTime) % channel.duration -
          prefixDur channel.programs i
  · rw [if_pos hc, if_pos hc]
    simp
  · rw [if_neg hc, if_neg hc]
    simp

/-- Scenario S1 witness: startTime 0, lineup [A(60 s), B(120 s), C(30 s)],
resolving at 70 s returns (B, 10 s, index 1); obtained by applying
`resolver_walk_correct` at that concrete input. -/
theorem resolver_walk_correct_witness :
    getCurrentProgramAndTimeElapsed 70000
      { startTime := 0, duration := 210000
        programs := [{ duration := 60000, title := "A" },
                     { duration := 120000, title := "B" },
                     { duration := 30000, title := "C" }] } =
      some { program := { duration := 120000, title := "B" }
             timeElapsed := 10000
             programIndex := 1 } := by
  have h := resolver_walk_correct
    { startTime := 0, duration := 210000
      programs := [{ duration := 60000, title := "A" },
                   { duration := 120000, title := "B" },
                   { duration := 30000, title := "C" }] }
    70000 1 (by decide) (by decide) (by decide) (by decide)
  simpa using h

/-- C5 counterexample: a channel whose single program's duration (50 s)
diverges from `channel.duration` (10 s) by far more than SLACK is *not*
rejected — the resolver returns a program normally, so the claimed
`LineupDurationMismatch` failure does not exist in the code. -/
theorem lineup_mismatch_not_rejected :
    prefixDur [({ duration := 50000 } : ChanProgram)] 1 > 10000 + SLACK ∧
    getCurrentProgramAndTimeElapsed 5000
      { startTime := 0, duration := 10000
        programs := [{ duration := 50000 }] } =
      some { program := { duration := 50000 }, timeElapsed := 5000
             programIndex := 0 } := by
  constructor
  · decide
  · decide

/-- C5 amended: on a lineup with zero items (and `now ≥ startTime`) the
resolver does throw — no lineup item is returned — though the error is the
generic "No program found" throw; there is no duration-mismatch check. -/
theorem resolver_empty_lineup_throws (channel : ResolverChannel) (now : Nat)
    (hstart : channel.startTime ≤ now) (hempty : channel.programs = []) :
    getCurrentProgramAndTimeElapsed now channel = none := by
  have hnot : ¬ now < channel.startTime := by omega
  simp [getCurrentProgramAndTimeElapsed, if_neg hnot, hempty, findProgramLoop]

/-- Witness for `resolver_empty_lineup_throws` at a concrete channel. -/
theorem resolver_empty_lineup_throws_witness :
    getCurrentProgramAndTimeElapsed 5
      { startTime := 0, duration := 100, programs := [] } = none :=
  resolver_empty_lineup_throws
    { startTime := 0, duration := 100, programs := [] } 5 (by decide) rfl

/-! ### Filler weight helpers (`norm_d`, `norm_s`)

`Math.log` is a floating-point transcendental; it is modelled as an explicit
function parameter `log`; all other arithmetic is exact and modelled in `ℚ`
with `Int.ceil` for `Math.ceil`. -/

/-- `norm_d(x)` from the helper module: `x /= 60000`; if `x ≥ 3` then
`x = 3 + log x`; `y = 10000 * (⌈x·1000⌉ + 1)`; return `⌈y/1000000⌉ + 1`. -/
def norm_d (log : Rat → Rat) (xms : Rat) : Int :=
  let x := xms / 60000
  let x := if 3 ≤ x then 3 + log x else x
  let y : Int := 10000 * (Int.ceil (x * 1000) + 1)
  Int.ceil ((y : Rat) / 1000000) + 1

/-- `norm_s(x)` from the helper module: `y = ⌈x/600⌉ + 1`; `y = y·y`;
return `⌈y/1000000⌉ + 1`. -/
def norm_s (xms : Rat) : Int :=
  let y : Int := Int.ceil (xms / 600) + 1
  let y2 := y * y
  Int.ceil ((y2 : Rat) / 1000000) + 1

/-- The C8 claim's formula for `norm_d`, written as the spec states it:
`⌈(10000·⌈1000·x⌉ + 10000) / 10⁶⌉ + 1` with `x = d_ms/60000` replaced by
`3 + ln x` when `x ≥ 3`. -/
def normDSpecFormula (log : Rat → Rat) (dms : Rat) : Int :=
  let x0 := dms / 60000
  let x := if 3 ≤ x0 then 3 + log x0 else x0
  Int.ceil (((10000 * Int.ceil (1000 * x) + 10000 : Int) : Rat) / 10 ^ 6) + 1

/-- The C8 claim's formula for `norm_s`: `⌈(⌈s_ms/600⌉ + 1)² / 10⁶⌉ + 1`. -/
def normSSpecFormula (sms : Rat) : Int :=
  Int.ceil ((((Int.ceil (sms / 600) + 1) ^ 2 : Int) : Rat) / 10 ^ 6) + 1

/-- C8: the filler weight helpers compute exactly the claimed formulas,
for every duration and time-since (`ln` abstracted as the same `log`
function on both sides). -/
theorem norm_helpers_match_spec (log : Rat → Rat) (dms sms : Rat) :
    norm_d log dms = normDSpecFormula log dms ∧
    norm_s sms = normSSpecFormula sms := by
  constructor
  · simp only [norm_d, normDSpecFormula]
    have hx : ∀ x : Rat, (10000 : Int) * (Int.ceil (x * 1000) + 1) =
        10000 * Int.ceil ((1000 : Rat) * x) + 10000 := by
      intro x; rw [mul_comm x 1000]; ring
    rw [hx]
    norm_num
  · simp only [norm_s, normSSpecFormula]
    have hsq : ((Int.ceil (sms / 600) + 1) * (Int.ceil (sms / 600) + 1) : Int) =
        (Int.ceil (sms / 600) + 1) ^ 2 := by ring
    rw [hsq]
    norm_num

/-! ### The filler picker (`pickRandomWithMaxDuration`) and `createLineup`

`random.bool(a, total)` draws are modelled as an explicit stream of booleans
(`rng`), `new Date().getTime()` as the parameter `t0`, and the two
`ChannelCache` lookups as function parameters.  Times are `Int` because the
JavaScript subtraction `t0 - t1` may be negative. -/

/-- A filler collection (`fillers[j]`): id, clip list, weight, cooldown. -/
structure FillerList where
  id : String
  content : List ChanProgram
  weight : Nat
  cooldown : Int
deriving Repr, DecidableEq

/-- The channel fields read by `createLineup`/`pickRandomWithMaxDuration`. -/
structure HelperChannel where
  number : Nat
  fillerRepeatCooldown : Option Int := none
  offlineMode : String := "pic"
  fallback : List ChanProgram := []
deriving Repr, DecidableEq

/-- Mutable state threaded through the picker loops. -/
structure PickState where
  pick1 : Option ChanProgram := none
  minimumWait : Int := 1000000000
  listM : Nat := 0
  fillerId : Option String := none
  rng : List Bool := []
deriving Repr, DecidableEq

/-- Pop one `random.bool` draw from the stream (`false` when exhausted). -/
def takeRand (rng : List Bool) : Bool × List Bool :=
  match rng with
  | [] => (false, [])
  | b :: rest => (b, rest)

/-- `D = 7 days` in ms ("never played" placeholder). -/
def pickNeverPlayed : Int := 7 * 24 * 60 * 60 * 1000

/-- `E = 5 hours` in ms (cap on `timeSince` for the weight). -/
def pickTimeSinceCap : Int := 5 * 60 * 60 * 1000

/-- Tail of the clip-loop body: `if (timeSince <= 0) continue;` then weigh
the clip (`w = norm_s(min(timeSince, E)) + norm_d(duration)`), add to the
running sum `n`, and reservoir-accept with one draw. -/
def pickWeightStep (log : Rat → Rat) (clip : ChanProgram) (timeSince : Int)
    (n : Int) (st : PickState) : Int × PickState :=
  if timeSince ≤ 0 then (n, st)
  else
    let s := norm_s (((if pickTimeSinceCap ≤ timeSince then pickTimeSinceCap
                       else timeSince) : Int) : Rat)
    let d := norm_d log ((clip.duration : Nat) : Rat)
    let w := s + d
    let n := n + w
    let (b, rng) := takeRand st.rng
    let st := { st with rng := rng }
    (n, if b then { st with pick1 := some clip } else st)

/-- The inner `for (i...)` loop of `pickRandomWithMaxDuration` over the
clips of collection `fl`.  Returning without recursing models `break`. -/
def pickClipsLoop (log : Rat → Rat) (progLastPlay : Nat → ChanProgram → Int)
    (fillerLastPlay : Nat → String → Int) (t0 : Int) (chanNumber : Nat)
    (repeatCooldown : Int) (maxDuration : Int) (fl : FillerList) :
    List ChanProgram → Bool → Int → PickState → PickState
  | [], _, _, st => st
  | clip :: rest, pickedList, n, st =>
    if (clip.duration : Int) ≤ maxDuration + (SLACK : Int) then
      let t1 := progLastPlay chanNumber clip
      let timeSince := if t1 = 0 then pickNeverPlayed else t0 - t1
      if timeSince < repeatCooldown - (SLACK : Int) then
        -- clip still in repeat cooldown: maybe lower minimumWait, zero the
        -- time-since, and `continue`
        let w := repeatCooldown - timeSince
        let st :=
          if (clip.duration : Int) + w ≤ maxDuration + (SLACK : Int) then
            { st with minimumWait := min st.minimumWait w }
          else st
        let (n, st) := pickWeightStep log clip 0 n st
        pickClipsLoop log progLastPlay fillerLastPlay t0 chanNumber
          repeatCooldown maxDuration fl rest pickedList n st
      else if pickedList = false then
        -- decide whether this collection is picked at all
        let t1f := fillerLastPlay chanNumber fl.id
        let timeSinceF := if t1f = 0 then pickNeverPlayed else t0 - t1f
        if (fl.cooldown : Int) ≤ timeSinceF + (SLACK : Int) then
          let (b, rng) := takeRand st.rng
          let st := { st with listM := st.listM + fl.weight, rng := rng }
          if b then
            let st := { st with fillerId := some fl.id }
            let (n, st) := pickWeightStep log clip timeSince 0 st
            pickClipsLoop log progLastPlay fillerLastPlay t0 chanNumber
              repeatCooldown maxDuration fl rest true n st
          else st
        else
          let w := (fl.cooldown : Int) - timeSinceF
          if (clip.duration : Int) + w ≤ maxDuration + (SLACK : Int) then
            { st with minimumWait := min st.minimumWait w }
          else st
      else
        let (n, st) := pickWeightStep log clip timeSince n st
        pickClipsLoop log progLastPlay fillerLastPlay t0 chanNumber
          repeatCooldown maxDuration fl rest pickedList n st
    else
      pickClipsLoop log progLastPlay fillerLastPlay t0 chanNumber
        repeatCooldown maxDuration fl rest pickedList n st

/-- The outer `for (j...)` loop over the filler collections; `pickedList`
and `n` restart at `false`/`0` for each collection. -/
def pickFillersLoop (log : Rat → Rat) (progLastPlay : Nat → ChanProgram → Int)
    (fillerLastPlay : Nat → String → Int) (t0 : Int) (chanNumber : Nat)
    (repeatCooldown : Int) (maxDuration : Int) :
    List FillerList → PickState → PickState
  | [], st => st
  | fl :: rest, st =>
    let st := pickClipsLoop log progLastPlay fillerLastPlay t0 chanNumber
      repeatCooldown maxDuration fl fl.content false 0 st
    pickFillersLoop log progLastPlay fillerLastPlay t0 chanNumber
      repeatCooldown maxDuration rest st

/-- Result of `pickRandomWithMaxDuration`; the source clones the picked
clip and attaches `fillerId` — modelled as a separate field. -/
structure PickResult where
  filler : Option ChanProgram := none
  fillerId : Option String := none
  minimumWait : Int := 1000000000
deriving Repr, DecidableEq

/-- `pickRandomWithMaxDuration(channelCache, channel, fillers, maxDuration)`
from the helper module.  An undefined `channel.fillerRepeatCooldown`
defaults to 30 minutes. -/
def pickRandomWithMaxDuration (log : Rat → Rat)
    (progLastPlay : Nat → ChanProgram → Int)
    (fillerLastPlay : Nat → String → Int) (t0 : Int) (rng : List Bool)
    (channel : HelperChannel) (fillers : List FillerList)
    (maxDuration : Int) : PickResult :=
  let repeatCooldown := channel.fillerRepeatCooldown.getD (30 * 60 * 1000)
  let st := pickFillersLoop log progLastPlay fillerLastPlay t0 channel.number
    repeatCooldown maxDuration fillers { rng := rng }
  { filler := st.pick1
    fillerId := if st.pick1.isSome then st.fillerId else none
    minimumWait := st.minimumWait }

/-- Runtime lineup item type (`LineupItem['type']`). -/
inductive StreamItemType
  | offline | commercial | program | loading
deriving Repr, DecidableEq

/-- A runtime stream lineup item as produced by `createLineup` (and by the
redirect loop of `VideoStream`).  `streamDuration` is optional because the
cycle-error item recorded by `VideoStream` carries none. -/
structure StreamItem where
  type : StreamItemType
  title : String := ""
  key : String := ""
  plexFile : String := ""
  file : String := ""
  ratingKey : String := ""
  serverKey : String := ""
  fillerId : Option String := none
  err : Option String := none
  start : Int := 0
  streamDuration : Option Int := none
  duration : Int := 0
  beginningOffset : Int := 0
deriving Repr, DecidableEq

/-- `createLineup(channelCache, obj, channel, fillers, isFirst)` from the
helper module.  `rngInt` models the single `random.integer(0, more)` draw
(reduced into range by `mod (more+1)`); the remaining oracles are as in
`pickRandomWithMaxDuration`.  Note the source's guard
`typeof randomResult.minimumWait !== undefined` is always true in
JavaScript (`typeof` yields a string), so the gap is shortened whenever
`filler == null` and `remaining > minimumWait`. -/
def createLineup (log : Rat → Rat) (progLastPlay : Nat → ChanProgram → Int)
    (fillerLastPlay : Nat → String → Int) (t0 : Int) (rng : List Bool)
    (rngInt : Nat) (obj : ProgramAndTimeElapsed) (channel : HelperChannel)
    (fillers : List FillerList) (isFirst : Bool) : List StreamItem :=
  let timeElapsed := obj.timeElapsed
  let activeProgram := obj.program
  let beginningOffset : Int := 0
  match activeProgram.err with
  | some e =>
    let remaining : Int := (activeProgram.duration : Int) - (timeElapsed : Int)
    [{ type := .offline, title := "Error", err := some e
       streamDuration := some remaining, duration := remaining
       start := 0, beginningOffset := beginningOffset }]
  | none =>
    if activeProgram.isOffline = true then
      let remaining : Int := (activeProgram.duration : Int) - (timeElapsed : Int)
      let special : Option ChanProgram :=
        if channel.offlineMode = "clip" ∧ channel.fallback ≠ [] then
          channel.fallback.head?
        else none
      let randomResult := pickRandomWithMaxDuration log progLastPlay
        fillerLastPlay t0 rng channel fillers
        (remaining + (if isFirst then 7 * 24 * 60 * 60 * 1000 else 0))
      let remaining :=
        if randomResult.filler = none ∧ randomResult.minimumWait < remaining
        then randomResult.minimumWait else remaining
      let (filler, isSpecial) :=
        match randomResult.filler with
        | none => (special, true)
        | some f => (some f, false)
      match filler with
      | some f =>
        let fillerstart : Int :=
          if isSpecial then
            if remaining < (f.duration : Int) then (f.duration : Int) - remaining
            else 0
          else if isFirst then
            let fs := max 0 ((f.duration : Int) - remaining)
            let more := max 0 ((f.duration : Int) - fs - 15000 - (SLACK : Int))
            fs + ((rngInt % (more.toNat + 1) : Nat) : Int)
          else 0
        [{ type := .commercial, title := f.title, key := f.key
           plexFile := f.plexFile, file := f.file, ratingKey := f.ratingKey
           start := fillerstart
           streamDuration :=
             some (max 1 (min ((f.duration : Int) - fillerstart) remaining))
           duration := (f.duration : Int)
           fillerId := randomResult.fillerId
           beginningOffset := beginningOffset
           serverKey := f.serverKey }]
      | none =>
        let remaining := min remaining (10 * 60 * 1000)
        [{ type := .offline, title := "Channel Offline"
           streamDuration := some remaining
           beginningOffset := beginningOffset
           duration := remaining, start := 0 }]
    else
      let originalTimeElapsed : Int := (timeElapsed : Int)
      let timeElapsedSnapped : Int :=
        if (timeElapsed : Int) < 30000 then 0 else (timeElapsed : Int)
      let beginningOffset := max 0 (originalTimeElapsed - timeElapsedSnapped)
      [{ type := .program, title := activeProgram.title
         key := activeProgram.key, plexFile := activeProgram.plexFile
         file := activeProgram.file, ratingKey := activeProgram.ratingKey
         start := timeElapsedSnapped
         streamDuration :=
           some ((activeProgram.duration : Int) - timeElapsedSnapped)
         beginningOffset := beginningOffset
         duration := (activeProgram.duration : Int)
         serverKey := activeProgram.serverKey }]

theorem pickWeightStep_pick1_cases (log : Rat → Rat) (clip : ChanProgram)
    (timeSince n : Int) (st : PickState) :
    (pickWeightStep log clip timeSince n st).2.pick1 = st.pick1 ∨
    (pickWeightStep log clip timeSince n st).2.pick1 = some clip := by
  simp only [pickWeightStep]
  split
  · left; rfl
  · rcases htr : takeRand st.rng with ⟨b, rng⟩
    simp only [htr]
    cases b
    · left; rfl
    · right; rfl

theorem pickWeightStep_bound (log : Rat → Rat) (clip : ChanProgram)
    (timeSince n : Int) (st : PickState) (bound : Int)
    (hst : ∀ f, st.pick1 = some f → (f.duration : Int) ≤ bound)
    (hclip : (clip.duration : Int) ≤ bound) :
    ∀ f, (pickWeightStep log clip timeSince n st).2.pick1 = some f →
      (f.duration : Int) ≤ bound := by
  intro f hf
  rcases pickWeightStep_pick1_cases log clip timeSince n st with hc | hc
  · exact hst f (hc.symm.trans hf)
  · exact (Option.some.inj (hc.symm.trans hf)) ▸ hclip

/-- The clip loop never selects a clip violating the duration gate
`duration ≤ maxDuration + SLACK`. -/
theorem pickClipsLoop_bound (log : Rat → Rat)
    (progLastPlay : Nat → ChanProgram → Int)
    (fillerLastPlay : Nat → String → Int) (t0 : Int) (chanNumber : Nat)
    (repeatCooldown : Int) (maxDuration : Int) (fl : FillerList)
    (clips : List ChanProgram) (pickedList : Bool) (n : Int) (st : PickState)
    (hst : ∀ f, st.pick1 = some f →
      (f.duration : Int) ≤ maxDuration + (SLACK : Int)) :
    ∀ f, (pickClipsLoop log progLastPlay fillerLastPlay t0 chanNumber
        repeatCooldown maxDuration fl clips pickedList n st).pick1 = some f →
      (f.duration : Int) ≤ maxDuration + (SLACK : Int) := by
  induction clips generalizing pickedList n st with
  | nil => simpa [pickClipsLoop] using hst
  | cons clip rest ih =>
    simp only [pickClipsLoop]
    split_ifs
    all_goals first
      | exact ih _ _ _ hst
      | exact hst
      | exact ih _ _ _ (pickWeightStep_bound _ _ _ _ _ _ hst (by assumption))

theorem pickFillersLoop_bound (log : Rat → Rat)
    (progLastPlay : Nat → ChanProgram → Int)
    (fillerLastPlay : Nat → String → Int) (t0 : Int) (chanNumber : Nat)
    (repeatCooldown : Int) (maxDuration : Int) (fillers : List FillerList)
    (st : PickState)
    (hst : ∀ f, st.pick1 = some f →
      (f.duration : Int) ≤ maxDuration + (SLACK : Int)) :
    ∀ f, (pickFillersLoop log progLastPlay fillerLastPlay t0 chanNumber
        repeatCooldown maxDuration fillers st).pick1 = some f →
      (f.duration : Int) ≤ maxDuration + (SLACK : Int) := by
  induction fillers generalizing st with
  | nil => simpa [pickFillersLoop] using hst
  | cons fl rest ih =>
    simp only [pickFillersLoop]
    exact ih _ (pickClipsLoop_bound log progLastPlay fillerLastPlay t0
      chanNumber repeatCooldown maxDuration fl fl.content false 0 st hst)

/-- C4 amended: every clip returned by the weighted picker fits the
`maxDuration` the picker was *given*: `duration ≤ maxDuration + SLACK` —
for every cache state, clock, random stream, channel and filler list. -/
theorem pick_filler_fits (log : Rat → Rat)
    (progLastPlay : Nat → ChanProgram → Int)
    (fillerLastPlay : Nat → String → Int) (t0 : Int) (rng : List Bool)
    (channel : HelperChannel) (fillers : List FillerList) (maxDuration : Int)
    (f : ChanProgram)
    (h : (pickRandomWithMaxDuration log progLastPlay fillerLastPlay t0 rng
      channel fillers maxDuration).filler = some f) :
    (f.duration : Int) ≤ maxDuration + (SLACK : Int) := by
  exact pickFillersLoop_bound log progLastPlay fillerLastPlay t0
    channel.number (channel.fillerRepeatCooldown.getD (30 * 60 * 1000))
    maxDuration fillers { rng := rng } (by intro f hf; simp at hf) f h

/-- Witness for `pick_filler_fits`: scenario S4's never-played 30 s clip is
picked for a 300 s gap (non-first join) and satisfies the fit bound. -/
theorem pick_filler_fits_witness :
    (((30000 : Nat) : Int)) ≤ 300000 + (SLACK : Int) :=
  pick_filler_fits (fun _ => 0) (fun _ _ => 0) (fun _ _ => 0) 1 [true, true]
    { number := 1 }
    [{ id := "fl", content := [{ duration := 30000, title := "clip" }]
       weight := 1, cooldown := 0 }]
    300000 { duration := 30000, title := "clip" } (by decide)

/-- C4 counterexample: on a *first join* (`isFirst = true`), `createLineup`
passes `maxDuration = remaining + 7 days` to the picker, so a 1000 s clip
is returned for a 60 s offline gap — its duration exceeds
`remaining + SLACK`, refuting the claim for `isFirstJoin = true`. -/
theorem filler_fit_fails_on_first_join :
    (createLineup (fun _ => 0) (fun _ _ => 0) (fun _ _ => 0) 1 [true, true] 0
      { program := { duration := 60000, isOffline := true }
        timeElapsed := 0, programIndex := 0 }
      { number := 1 }
      [{ id := "fl", content := [{ duration := 1000000, title := "big" }]
         weight := 1, cooldown := 0 }]
      true) =
      [{ type := .commercial, title := "big", start := 940000
         streamDuration := some 60000, duration := 1000000
         fillerId := some "fl" }] ∧
    (1000000 : Int) > (60000 - 0) + (SLACK : Int) := by
  constructor
  · decide
  · decide

theorem pickRandom_fillerId_none (log : Rat → Rat)
    (progLastPlay : Nat → ChanProgram → Int)
    (fillerLastPlay : Nat → String → Int) (t0 : Int) (rng : List Bool)
    (channel : HelperChannel) (fillers : List FillerList) (maxDuration : Int)
    (h : (pickRandomWithMaxDuration log progLastPlay fillerLastPlay t0 rng
      channel fillers maxDuration).filler = none) :
    (pickRandomWithMaxDuration log progLastPlay fillerLastPlay t0 rng
      channel fillers maxDuration).fillerId = none := by
  simp only [pickRandomWithMaxDuration] at h ⊢
  rw [h]
  rfl

/-- C4 amended, claim level: for a non-first join (`isFirst = false`), any
commercial item produced by `createLineup` for an offline gap that carries a
`fillerId` (i.e. came from the weighted picker, not the static fallback)
has `duration ≤ remaining + SLACK` where `remaining` is the offline gap. -/
theorem filler_fit_not_first (log : Rat → Rat)
    (progLastPlay : Nat → ChanProgram → Int)
    (fillerLastPlay : Nat → String → Int) (t0 : Int) (rng : List Bool)
    (rngInt : Nat) (obj : ProgramAndTimeElapsed) (channel : HelperChannel)
    (fillers : List FillerList) (it : StreamItem)
    (herr : obj.program.err = none) (hoff : obj.program.isOffline = true)
    (hres : createLineup log progLastPlay fillerLastPlay t0 rng rngInt obj
      channel fillers false = [it])
    (hty : it.type = StreamItemType.commercial) (hfid : it.fillerId ≠ none) :
    it.duration ≤
      ((obj.program.duration : Int) - (obj.timeElapsed : Int)) +
        (SLACK : Int) := by
  simp only [createLineup, herr, hoff, if_true] at hres
  rcases hpick : (pickRandomWithMaxDuration log progLastPlay fillerLastPlay t0
      rng channel fillers
      (((obj.program.duration : Int) - (obj.timeElapsed : Int)) +
        (if False then 7 * 24 * 60 * 60 * 1000 else 0))).filler with _ | f
  · rw [if_neg (by simp)] at hres
    rw [show (if False then (7 * 24 * 60 * 60 * 1000 : Int) else 0) = 0
      from rfl] at hpick
    simp only [hpick] at hres
    rcases hsp : (if channel.offlineMode = "clip" ∧ channel.fallback ≠ [] then
        channel.fallback.head? else none) with _ | s
    · simp only [hsp] at hres
      obtain ⟨heq, -⟩ := List.cons.inj hres
      rw [← heq] at hty
      simp at hty
    · simp only [hsp] at hres
      obtain ⟨heq, -⟩ := List.cons.inj hres
      have hnone := pickRandom_fillerId_none log progLastPlay fillerLastPlay
        t0 rng channel fillers
        (((obj.program.duration : Int) - (obj.timeElapsed : Int)) + 0)
        (by simpa using hpick)
      rw [← heq] at hfid
      rw [add_zero] at hnone
      simp [hnone] at hfid
  · rw [if_neg (by simp)] at hres
    rw [show (if False then (7 * 24 * 60 * 60 * 1000 : Int) else 0) = 0
      from rfl] at hpick
    simp only [hpick] at hres
    obtain ⟨heq, -⟩ := List.cons.inj hres
    have hb := pick_filler_fits log progLastPlay fillerLastPlay t0 rng channel
      fillers
      (((obj.program.duration : Int) - (obj.timeElapsed : Int)) + 0) f hpick
    rw [← heq]
    show (f.duration : Int) ≤
      ((obj.program.duration : Int) - (obj.timeElapsed : Int)) + (SLACK : Int)
    omega

/-- Witness for `filler_fit_not_first`: scenario S4 — an offline slot of
300 s, one collection with a never-played 30 s clip, non-first join; the
clip is attached as a commercial item and fits the gap. -/
theorem filler_fit_not_first_witness :
    ({ type := .commercial, title := "clip", start := 0
       streamDuration := some 30000, duration := 30000
       fillerId := some "fl" } : StreamItem).duration ≤
      (((300000 : Nat) : Int) - ((0 : Nat) : Int)) + (SLACK : Int) := by
  have h := filler_fit_not_first (fun _ => 0) (fun _ _ => 0) (fun _ _ => 0)
    1 [true, true] 0
    { program := { duration := 300000, isOffline := true }
      timeElapsed := 0, programIndex := 0 }
    { number := 1 }
    [{ id := "fl", content := [{ duration := 30000, title := "clip" }]
       weight := 1, cooldown := 0 }]
    { type := .commercial, title := "clip", start := 0
      streamDuration := some 30000, duration := 30000
      fillerId := some "fl" }
    rfl rfl (by decide) rfl (by decide)
  exact h

/-- C7: for a content (non-offline, non-error) resolved item, `createLineup`
snaps the start: when `timeElapsed < 30000` ms the item starts the source at
0 and carries `beginningOffset = timeElapsed`; otherwise it starts at
`timeElapsed` with `beginningOffset = 0`. -/
theorem start_snap (log : Rat → Rat) (progLastPlay : Nat → ChanProgram → Int)
    (fillerLastPlay : Nat → String → Int) (t0 : Int) (rng : List Bool)
    (rngInt : Nat) (obj : ProgramAndTimeElapsed) (channel : HelperChannel)
    (fillers : List FillerList) (isFirst : Bool)
    (herr : obj.program.err = none) (hoff : obj.program.isOffline = false) :
    createLineup log progLastPlay fillerLastPlay t0 rng rngInt obj channel
        fillers isFirst =
      [{ type := .program, title := obj.program.title, key := obj.program.key
         plexFile := obj.program.plexFile, file := obj.program.file
         ratingKey := obj.program.ratingKey
         start := if obj.timeElapsed < 30000 then 0 else (obj.timeElapsed : Int)
         streamDuration := some ((obj.program.duration : Int) -
           (if obj.timeElapsed < 30000 then 0 else (obj.timeElapsed : Int)))
         beginningOffset :=
           if obj.timeElapsed < 30000 then (obj.timeElapsed : Int) else 0
         duration := (obj.program.duration : Int)
         serverKey := obj.program.serverKey }] := by
  by_cases h : obj.timeElapsed < 30000
  · have h' : ((obj.timeElapsed : Nat) : Int) < 30000 := by exact_mod_cast h
    simp [createLineup, herr, hoff, h, h']
  · have h' : ¬ ((obj.timeElapsed : Nat) : Int) < 30000 := by exact_mod_cast h
    simp [createLineup, herr, hoff, h, h']

/-- Witness for `start_snap`: scenario S2 — the S1 channel resolved at 65 s
yields program B at index 1 with 5 s elapsed, and the produced item starts
at 0 with `beginningOffset = 5000` ms. -/
theorem start_snap_witness :
    getCurrentProgramAndTimeElapsed 65000
      { startTime := 0, duration := 210000
        programs := [{ duration := 60000, title := "A" },
                     { duration := 120000, title := "B" },
                     { duration := 30000, title := "C" }] } =
      some { program := { duration := 120000, title := "B" }
             timeElapsed := 5000, programIndex := 1 } ∧
    createLineup (fun _ => 0) (fun _ _ => 0) (fun _ _ => 0) 0 [] 0
      { program := { duration := 120000, title := "B" }
        timeElapsed := 5000, programIndex := 1 }
      { number := 1 } [] false =
      [{ type := .program, title := "B", start := 0
         streamDuration := some 120000, beginningOffset := 5000
         duration := 120000 }] := by
  constructor
  · decide
  · have h := start_snap (fun _ => 0) (fun _ _ => 0) (fun _ _ => 0) 0 [] 0
      { program := { duration := 120000, title := "B" }
        timeElapsed := 5000, programIndex := 1 }
      { number := 1 } [] false rfl rfl
    rw [h]
    decide

/-! ### The encoder process wrapper (ffmpeg.ts) -/

/-- The events the wrapper can emit on process exit. -/
inductive FfmpegEvent
  | endEvent | errorEvent | closeEvent
deriving Repr, DecidableEq

/-- The `exit` handler installed by `FFMPEG.spawn` (ffmpeg.ts): given the
exit `code` (`none` = terminated by a signal), whether any stdout bytes had
been recorded (`sentData`) and whether `kill()` had been called
(`hasBeenKilled`), the list of events emitted, in order. -/
def ffmpegExitEvents (code : Option Int) (sentData hasBeenKilled : Bool) :
    List FfmpegEvent :=
  match code with
  | none => [.closeEvent]
  | some c =>
    if c = 0 then [.endEvent]
    else if c = 255 then
      if hasBeenKilled = true then [.closeEvent]
      else if sentData = false then [.errorEvent, .closeEvent]
      else [.closeEvent]
    else [.errorEvent]

/-- C2 counterexample: exit code 0 emits only `end` — no `close` — so
"close is emitted on every terminal state" is false; and exit 255 after
bytes were produced emits only `close`, not the claimed `end`. -/
theorem exit_mapping_counterexample :
    FfmpegEvent.closeEvent ∉ ffmpegExitEvents (some 0) true false ∧
    FfmpegEvent.endEvent ∉ ffmpegExitEvents (some 255) true false := by
  decide

/-- C2 amended: the complete exit-event mapping — signal → `close` only;
exit 0 → `end` only; exit 255 (not killed) → `close`, preceded by `error`
exactly when no bytes were produced; exit 255 after `kill()` → `close`
only; any other exit code → `error` only. -/
theorem exit_code_mapping (sentData killed : Bool) (c : Int)
    (h0 : c ≠ 0) (h255 : c ≠ 255) :
    ffmpegExitEvents none sentData killed = [.closeEvent] ∧
    ffmpegExitEvents (some 0) sentData killed = [.endEvent] ∧
    ffmpegExitEvents (some 255) sentData false =
      (if sentData then [.closeEvent] else [.errorEvent, .closeEvent]) ∧
    ffmpegExitEvents (some 255) sentData true = [.closeEvent] ∧
    ffmpegExitEvents (some c) sentData killed = [.errorEvent] := by
  refine ⟨rfl, rfl, ?_, rfl, ?_⟩
  · cases sentData <;> rfl
  · simp [ffmpegExitEvents, h0, h255]

/-- Witness for `exit_code_mapping` at exit code 1. -/
theorem exit_code_mapping_witness :
    ffmpegExitEvents none true false = [.closeEvent] ∧
    ffmpegExitEvents (some 0) true false = [.endEvent] ∧
    ffmpegExitEvents (some 255) true false =
      (if true then [.closeEvent] else [.errorEvent, .closeEvent]) ∧
    ffmpegExitEvents (some 255) true true = [.closeEvent] ∧
    ffmpegExitEvents (some 1) true false = [.errorEvent] :=
  exit_code_mapping true false 1 (by decide) (by decide)

/-- `MAXIMUM_ERROR_DURATION_MS` (ffmpeg.ts). -/
def MAXIMUM_ERROR_DURATION_MS : Nat := 60000

/-- `FFMPEG.spawnError(title, subtitle, duration)`: the duration (ms)
passed on to `spawn` (as `\x7bduration\x7dms` with `-t`), or `none` when no
encoder is spawned (transcoding disabled or `errorScreen == 'kill'`, which
emits an `error` event instead). -/
def spawnErrorDuration (enableTranscoding : Bool) (errorScreen : String)
    (duration : Option Nat) : Option Nat :=
  if enableTranscoding = false ∨ errorScreen = "kill" then none
  else
    let d := match duration with
             | none => MAXIMUM_ERROR_DURATION_MS
             | some v => v
    some (min MAXIMUM_ERROR_DURATION_MS d)

/-- C9: whenever `spawnError` spawns an encoder, the duration it passes is
`min(60000, d)` (with a 60000 ms placeholder substituted for an undefined
`d` before the clamp), hence every error screen plays for ≤ 60000 ms. -/
theorem spawn_error_capped (enableTranscoding : Bool) (errorScreen : String)
    (duration : Option Nat) (r : Nat)
    (h : spawnErrorDuration enableTranscoding errorScreen duration = some r) :
    r = min 60000 (duration.getD 60000) ∧ r ≤ 60000 := by
  simp only [spawnErrorDuration] at h
  split at h
  · exact absurd h (by simp)
  · cases duration with
    | none =>
      obtain rfl : min MAXIMUM_ERROR_DURATION_MS MAXIMUM_ERROR_DURATION_MS = r
        := by simpa using h
      exact ⟨rfl, by decide⟩
    | some v =>
      obtain rfl : min MAXIMUM_ERROR_DURATION_MS v = r := by simpa using h
      refine ⟨rfl, ?_⟩
      simp [MAXIMUM_ERROR_DURATION_MS]

/-- Witness for `spawn_error_capped`: a requested 90 s error screen is
clamped to 60 s. -/
theorem spawn_error_capped_witness :
    (60000 : Nat) = min 60000 ((some (90000 : Nat)).getD 60000) ∧
    (60000 : Nat) ≤ 60000 :=
  spawn_error_capped true "pic" (some 90000) 60000 (by decide)

/-! ### `getWatermark` (helper module) -/

/-- `ChannelIcon` — only the `path` is consulted. -/
structure ChannelIcon where
  path : String
deriving Repr, DecidableEq

/-- The four watermark positions (a TypeScript union type). -/
inductive WatermarkPosition
  | topLeft | topRight | bottomLeft | bottomRight
deriving Repr, DecidableEq

/-- The `Watermark` record of the helper module.  `fixedSize` and
`animated` are optional booleans (the source compares them with
`=== true`). -/
structure Watermark where
  enabled : Bool
  url : Option ChannelIcon := none
  width : Rat := 0
  verticalMargin : Rat := 0
  horizontalMargin : Rat := 0
  duration : Int := 0
  position : WatermarkPosition := .bottomRight
  fixedSize : Option Bool := none
  animated : Option Bool := none
deriving Repr, DecidableEq

/-- The channel-context fields read by `getWatermark`. -/
structure WatermarkChannel where
  disableFillerOverlay : Option Bool := none
  watermark : Option Watermark := none
  icon : Option ChannelIcon := none
deriving Repr, DecidableEq

/-- Fallback to the channel icon when the watermark url is missing or
empty (the inner `if` of `getWatermark`); fails when the channel icon is
also missing or empty. -/
def watermarkIconFallback (channelIcon : Option ChannelIcon) :
    Option ChannelIcon :=
  match channelIcon with
  | none => none
  | some cic => if cic.path = "" then none else some cic

/-- The `icon` selection of `getWatermark`: the watermark url when present
and non-empty, otherwise the channel-icon fallback. -/
def watermarkResolveIcon (url : Option ChannelIcon)
    (channelIcon : Option ChannelIcon) : Option ChannelIcon :=
  match url with
  | none => watermarkIconFallback channelIcon
  | some ic =>
    if ic.path = "" then watermarkIconFallback channelIcon else some ic

theorem watermarkIconFallback_ne_empty (channelIcon : Option ChannelIcon)
    (ic : ChannelIcon) (h : watermarkIconFallback channelIcon = some ic) :
    ic.path ≠ "" := by
  cases channelIcon with
  | none => exact absurd h (by simp [watermarkIconFallback])
  | some cic =>
    simp only [watermarkIconFallback] at h
    split at h
    · exact absurd h (by simp)
    · obtain rfl : cic = ic := Option.some.inj h
      assumption

theorem watermarkResolveIcon_ne_empty (url channelIcon : Option ChannelIcon)
    (ic : ChannelIcon) (h : watermarkResolveIcon url channelIcon = some ic) :
    ic.path ≠ "" := by
  cases url with
  | none => exact watermarkIconFallback_ne_empty channelIcon ic h
  | some u =>
    simp only [watermarkResolveIcon] at h
    split at h
    · exact watermarkIconFallback_ne_empty channelIcon ic h
    · obtain rfl : u = ic := Option.some.inj h
      assumption

/-- `getWatermark(ffmpegSettings, channel, type)` from the helper module. -/
def getWatermark (enableTranscoding : Bool) (disableChannelOverlay : Bool)
    (channel : WatermarkChannel) (itemType : String) : Option Watermark :=
  if enableTranscoding = false ∨ disableChannelOverlay = true then none
  else
    let disableFillerOverlay := channel.disableFillerOverlay.getD true
    if itemType = "commercial" ∧ disableFillerOverlay = true then none
    else
      match channel.watermark with
      | none => none
      | some watermark =>
        if watermark.enabled = false then none
        else
          match watermarkResolveIcon watermark.url channel.icon with
          | none => none
          | some ic =>
            some { enabled := true
                   url := some ic
                   width := watermark.width
                   verticalMargin := watermark.verticalMargin
                   horizontalMargin := watermark.horizontalMargin
                   duration := watermark.duration
                   position := watermark.position
                   fixedSize := some (watermark.fixedSize = some true)
                   animated := some (watermark.animated = some true) }

/-- C10: `getWatermark` returns nothing when transcoding is disabled or the
channel overlay is globally disabled; when the channel has no watermark or
it is not enabled; and for `commercial` items unless the channel explicitly
sets `disableFillerOverlay = false` (an undefined flag defaults to `true`);
any watermark it does return has `enabled = true` and a non-empty icon
path. -/
theorem getWatermark_spec (enableTranscoding disableChannelOverlay : Bool)
    (channel : WatermarkChannel) (itemType : String) :
    ((enableTranscoding = false ∨ disableChannelOverlay = true) →
      getWatermark enableTranscoding disableChannelOverlay channel itemType
        = none) ∧
    (channel.watermark = none →
      getWatermark enableTranscoding disableChannelOverlay channel itemType
        = none) ∧
    (∀ wm, channel.watermark = some wm → wm.enabled = false →
      getWatermark enableTranscoding disableChannelOverlay channel itemType
        = none) ∧
    (itemType = "commercial" → channel.disableFillerOverlay ≠ some false →
      getWatermark enableTranscoding disableChannelOverlay channel itemType
        = none) ∧
    (∀ w, getWatermark enableTranscoding disableChannelOverlay channel
        itemType = some w →
      w.enabled = true ∧ ∃ ic, w.url = some ic ∧ ic.path ≠ "") := by
  refine ⟨?_, ?_, ?_, ?_, ?_⟩
  · intro h
    simp [getWatermark, h]
  · intro h
    simp only [getWatermark, h]
    split
    · rfl
    · split
      · rfl
      · rfl
  · intro wm hwm hen
    simp only [getWatermark, hwm, hen]
    split
    · rfl
    · split
      · rfl
      · simp
  · intro hty hflag
    have hd : channel.disableFillerOverlay.getD true = true := by
      cases hdf : channel.disableFillerOverlay with
      | none => rfl
      | some b =>
        cases b
        · exact absurd hdf hflag
        · rfl
    simp only [getWatermark, hty, hd]
    split
    · rfl
    · simp
  · intro w hw
    simp only [getWatermark] at hw
    split at hw
    · exact absurd hw (by simp)
    split at hw
    · exact absurd hw (by simp)
    split at hw
    · exact absurd hw (by simp)
    next wm hwm =>
      split at hw
      · exact absurd hw (by simp)
      split at hw
      · exact absurd hw (by simp)
      next ic hic =>
        obtain rfl : _ = w := Option.some.inj hw
        exact ⟨rfl, ic, rfl,
          watermarkResolveIcon_ne_empty wm.url channel.icon ic hic⟩

/-- Witness for `getWatermark_spec` at a concrete channel: overlay globally
allowed, enabled watermark with a non-empty url, a `program` item. -/
theorem getWatermark_spec_witness :
    ((true = false ∨ false = true) →
      getWatermark true false
        { watermark := some { enabled := true, url := some ⟨"http://icon"⟩ } }
        "program" = none) ∧
    (({ watermark := some { enabled := true, url := some ⟨"http://icon"⟩ } }
        : WatermarkChannel).watermark = none →
      getWatermark true false
        { watermark := some { enabled := true, url := some ⟨"http://icon"⟩ } }
        "program" = none) ∧
    (∀ wm, ({ watermark := some { enabled := true, url := some ⟨"http://icon"⟩ } }
        : WatermarkChannel).watermark = some wm → wm.enabled = false →
      getWatermark true false
        { watermark := some { enabled := true, url := some ⟨"http://icon"⟩ } }
        "program" = none) ∧
    ("program" = "commercial" →
      ({ watermark := some { enabled := true, url := some ⟨"http://icon"⟩ } }
        : WatermarkChannel).disableFillerOverlay ≠ some false →
      getWatermark true false
        { watermark := some { enabled := true, url := some ⟨"http://icon"⟩ } }
        "program" = none) ∧
    (∀ w, getWatermark true false
        { watermark := some { enabled := true, url := some ⟨"http://icon"⟩ } }
        "program" = some w →
      w.enabled = true ∧ ∃ ic, w.url = some ic ∧ ic.path ≠ "") :=
  getWatermark_spec true false
    { watermark := some { enabled := true, url := some ⟨"http://icon"⟩ } }
    "program"

/-! ### The redirect-following loop of `VideoStream.startStream` -/

/-- A stored lineup item (`derived_types/Lineup`): content, redirect (to a
channel uuid), or offline, each with a duration in ms. -/
inductive RLineupItem
  | content (durationMs : Nat)
  | redirect (channel : String) (durationMs : Nat)
  | offline (durationMs : Nat)
deriving Repr, DecidableEq

def rItemDuration : RLineupItem → Nat
  | .content d => d
  | .redirect _ d => d
  | .offline d => d

/-- A channel with its stored lineup, as read by `VideoStream`. -/
structure RChannel where
  uuid : String
  startTime : Nat
  duration : Nat
  items : List RLineupItem
deriving Repr, DecidableEq

/-- The resolved program of the three-argument resolver: the lineup item
plus the optional error attached for invalid redirects. -/
structure RProgram where
  item : RLineupItem
  error : Option String := none
deriving Repr, DecidableEq

/-- The walk of the three-argument resolver over item durations — the same
accumulate-and-smooth loop as `findProgramLoop`. -/
def findItemLoop (durations : List Nat) (n : Nat) (timeElapsed : Nat)
    (y : Nat) : Option (Nat × Nat) :=
  match durations with
  | [] => none
  | d :: rest =>
    if timeElapsed < d then
      if 2 * SLACK < d ∧ d - SLACK < timeElapsed then
        some (0, (y + 1) % n)
      else
        some (timeElapsed, y)
    else
      findItemLoop rest n (timeElapsed - d) (y + 1)

/-- Modelled from the spec: the three-argument
`getCurrentProgramAndTimeElapsed(date, channel, lineup)` imported by
`VideoStream` lives in `helperFuncs.ts`, which is not among the provided
sources.  Per spec §4.2 it returns an offline item when `now < startTime`,
otherwise computes `elapsed = (now − startTime) mod duration` and walks the
lineup items accumulating durations with boundary smoothing — the same
algorithm as the two-argument resolver embedded above. -/
def resolveLineup (date : Nat) (ch : RChannel) : Option (RProgram × Nat) :=
  if date < ch.startTime then
    some ({ item := .offline (ch.startTime - date) }, 0)
  else
    let timeElapsed := (date - ch.startTime) % ch.duration
    match findItemLoop (ch.items.map rItemDuration) ch.items.length
        timeElapsed 0 with
    | none => none
    | some (te, idx) =>
      some ({ item := ch.items.getD idx (.offline 0) }, te)

/-- Modelled from the spec: the `ChannelCache` (PlaybackCache, spec §3) —
`channelCache.ts` is not among the provided sources.  `recordPlayback`
stores the item per channel with its timestamp; `getCurrentLineupItem`
returns the recorded item when queried for the same channel at the same
timestamp. -/
structure CacheRecord where
  uuid : String
  t0 : Nat
  item : StreamItem
deriving Repr, DecidableEq

def recordPlayback (cache : List CacheRecord) (uuid : String) (t : Nat)
    (item : StreamItem) : List CacheRecord :=
  { uuid := uuid, t0 := t, item := item } :: cache

def getCurrentLineupItem (cache : List CacheRecord) (uuid : String)
    (t : Nat) : Option StreamItem :=
  (cache.find? (fun r => r.uuid == uuid && r.t0 == t)).map (·.item)

/-- The state of the redirect `while` loop of `VideoStream.startStream`. -/
structure WalkState where
  channelContext : RChannel
  currentProgram : Option (RProgram × Nat)
  redirectChannels : List String
  upperBounds : List Nat
  cache : List CacheRecord
  lineupItem : Option StreamItem
deriving Repr, DecidableEq

/-- The redirect `while` loop of `VideoStream.startStream`, with explicit
fuel (one unit per hop).  Faithful to the source order: push the visited
channel and bound, record the cycle-error item in the cache when the target
was already visited, load the target channel, consult the cache (a hit
breaks the loop), otherwise re-resolve and continue; an unknown target
becomes a 60 s offline error program. -/
def redirectLoop (db : List RChannel) (t : Nat) :
    Nat → WalkState → WalkState
  | 0, st => st
  | fuel + 1, st =>
    match st.currentProgram with
    | none => st
    | some (prog, te) =>
      match prog.item with
      | RLineupItem.content _ => st
      | RLineupItem.offline _ => st
      | RLineupItem.redirect target d =>
      let visited := st.redirectChannels ++ [st.channelContext.uuid]
      let bounds := st.upperBounds ++ [d - te]
      let cache :=
        if target ∈ visited then
          recordPlayback st.cache st.channelContext.uuid t
            { type := .offline, title := "Error"
              err := some ("Recursive channel redirect found: " ++
                String.intercalate ", " visited)
              duration := 60000, start := 0 }
        else st.cache
      match db.find? (fun c => c.uuid == target) with
      | none =>
        redirectLoop db t fuel
          { st with
            redirectChannels := visited, upperBounds := bounds
            cache := cache
            currentProgram := some
              ({ item := .offline 60000
                 error := some "Invalid redirect to a channel that doesn't exist" }, 0) }
      | some ch =>
        match getCurrentLineupItem cache ch.uuid t with
        | some li =>
          { st with
            channelContext := ch, redirectChannels := visited
            upperBounds := bounds, cache := cache
            lineupItem := some li }
        | none =>
          redirectLoop db t fuel
            { st with
              channelContext := ch, redirectChannels := visited
              upperBounds := bounds, cache := cache
              currentProgram := resolveLineup t ch }

/-- Channel X of scenario S5: a single 600 s redirect to Y. -/
def chanX : RChannel :=
  { uuid := "X", startTime := 0, duration := 600000
    items := [.redirect "Y" 600000] }

/-- Channel Y of scenario S5: a single 600 s redirect to X. -/
def chanY : RChannel :=
  { uuid := "Y", startTime := 0, duration := 600000
    items := [.redirect "X" 600000] }

def cycleDB : List RChannel := [chanX, chanY]

/-- The loop state of `VideoStream.startStream` just before the `while`
loop, for a request on channel X at `t = 0`. -/
def cycleStart : WalkState :=
  { channelContext := chanX
    currentProgram := resolveLineup 0 chanX
    redirectChannels := []
    upperBounds := []
    cache := []
    lineupItem := none }

/-- C3 counterexample: for the two-channel cycle X↔Y (N = 2 channels) the
redirect loop does *not* finish within N hops — after 2 iterations no
lineup item has been produced and the current program is still a redirect —
so "terminates in at most N hops" is false as stated. -/
theorem redirect_two_hops_insufficient :
    (redirectLoop cycleDB 0 2 cycleStart).lineupItem = none ∧
    (redirectLoop cycleDB 0 2 cycleStart).currentProgram =
      some ({ item := .redirect "Y" 600000 }, 0) := by
  constructor
  · decide
  · decide

/-- The redirect loop never discards cache records: every record present
in the starting state's cache is still present after any number of hops
(`recordPlayback` only prepends). -/
theorem redirectLoop_cache_mono (db : List RChannel) (t : Nat) (fuel : Nat)
    (st : WalkState) (r : CacheRecord) (h : r ∈ st.cache) :
    r ∈ (redirectLoop db t fuel st).cache := by
  induction fuel generalizing st with
  | zero => simpa [redirectLoop] using h
  | succ fuel ih =>
    rcases hcp : st.currentProgram with _ | pte
    · simpa [redirectLoop, hcp] using h
    · rcases pte with ⟨prog, te⟩
      rcases hit : prog.item with d | ⟨target, d⟩ | d
      · simpa [redirectLoop, hcp, hit] using h
      · simp only [redirectLoop, hcp, hit]
        have hc : r ∈ (if target ∈ st.redirectChannels ++
              [st.channelContext.uuid] then
            recordPlayback st.cache st.channelContext.uuid t
              { type := .offline, title := "Error"
                err := some ("Recursive channel redirect found: " ++
                  String.intercalate ", "
                    (st.redirectChannels ++ [st.channelContext.uuid]))
                duration := 60000, start := 0 }
          else st.cache) := by
          split
          · exact List.mem_cons_of_mem _ h
          · exact h
        split
        · exact ih _ hc
        · split
          · exact hc
          · exact ih _ hc
      · simpa [redirectLoop, hcp, hit] using h

/-- The 60 s cycle-error stream item recorded on detection, as built at
the `recordPlayback` call site of the loop: error text
`Recursive channel redirect found: ` followed by the comma-separated ids
of the visited channels. -/
def cycleErrorItem (visited : List String) : StreamItem :=
  { type := .offline, title := "Error"
    err := some ("Recursive channel redirect found: " ++
      String.intercalate ", " visited)
    duration := 60000, start := 0 }

/-- C3 amended.  (1) Universally — for every channel set, timestamp, walk
state and fuel — when the walk reaches a redirect whose target channel is
already among the visited channels, the cycle is detected: a 60000 ms
offline item whose error text is `Recursive channel redirect found: `
followed by the comma-separated ids of the visited channels is recorded in
the playback cache.  (2) The claimed at-most-N-hops termination bound is
nonetheless false: the two-channel cycle X↔Y terminates only after 3 hops
(2N − 1), surfacing that recorded 60 s offline item as the stream item,
with error text containing both channel ids. -/
theorem redirect_cycle_surfaced :
    (∀ (db : List RChannel) (t fuel : Nat) (st : WalkState)
       (prog : RProgram) (te : Nat) (target : String) (d : Nat),
      st.currentProgram = some (prog, te) →
      prog.item = RLineupItem.redirect target d →
      target ∈ st.redirectChannels ++ [st.channelContext.uuid] →
      ({ uuid := st.channelContext.uuid, t0 := t
         item := cycleErrorItem
           (st.redirectChannels ++ [st.channelContext.uuid]) } : CacheRecord)
        ∈ (redirectLoop db t (fuel + 1) st).cache) ∧
    (redirectLoop cycleDB 0 3 cycleStart).lineupItem =
      some { type := .offline, title := "Error"
             err := some "Recursive channel redirect found: X, Y"
             duration := 60000, start := 0 } ∧
    List.IsInfix "X".toList "Recursive channel redirect found: X, Y".toList ∧
    List.IsInfix "Y".toList "Recursive channel redirect found: X, Y".toList := by
  refine ⟨?_, by decide, ?_, ?_⟩
  · intro db t fuel st prog te target d hcp hit hvis
    simp only [redirectLoop, hcp, hit]
    rw [if_pos hvis]
    have hmem :
        ({ uuid := st.channelContext.uuid, t0 := t
           item := cycleErrorItem
             (st.redirectChannels ++ [st.channelContext.uuid]) } : CacheRecord)
          ∈ recordPlayback st.cache st.channelContext.uuid t
              { type := .offline, title := "Error"
                err := some ("Recursive channel redirect found: " ++
                  String.intercalate ", "
                    (st.redirectChannels ++ [st.channelContext.uuid]))
                duration := 60000, start := 0 } := by
      simp [recordPlayback, cycleErrorItem]
    split
    · exact redirectLoop_cache_mono db t fuel _ _ hmem
    · split
      · exact hmem
      · exact redirectLoop_cache_mono db t fuel _ _ hmem
  · exact ⟨"Recursive channel redirect found: ".toList, ", Y".toList, by decide⟩
  · exact ⟨"Recursive channel redirect found: X, ".toList, "".toList, by decide⟩

/-- Witness for `redirect_cycle_surfaced`: the universal detection clause
applied to a self-redirect X→X in the S5 database — one hop records the
cycle error under X. -/
theorem redirect_cycle_surfaced_witness :
    ({ uuid := "X", t0 := 0
       item := cycleErrorItem ["X"] } : CacheRecord) ∈
      (redirectLoop cycleDB 0 (0 + 1)
        { channelContext := chanX
          currentProgram := some ({ item := .redirect "X" 600000 }, 0)
          redirectChannels := [], upperBounds := [], cache := []
          lineupItem := none }).cache :=
  redirect_cycle_surfaced.1 cycleDB 0 0
    { channelContext := chanX
      currentProgram := some ({ item := .redirect "X" 600000 }, 0)
      redirectChannels := [], upperBounds := [], cache := []
      lineupItem := none }
    { item := .redirect "X" 600000 } 0 "X" 600000 rfl rfl (by decide)

/-! ### The encoder argument builder (`FFMPEG.spawn`, ffmpeg.ts)

The argument list construction is embedded as a pure function of all its
inputs (settings, channel, probe stats, stream source, start/duration,
watermark, and the server globals `port` and `databaseDirectory`);
`Math.round` is round-half-up, `Math.ceil` on the exact rationals. -/

/-- JS template rendering of a possibly-undefined number
(`\x7bundefined\x7d` renders as the string `undefined`). -/
def jsOptNat (v : Option Nat) : String :=
  match v with
  | none => "undefined"
  | some n => toString n

/-- A single-quote character (ffmpeg filter strings quote drawtext/enable
arguments with it). -/
def sqChar : String := String.singleton (Char.ofNat 39)

/-- JS number rendering of `round(vp / 100, 2)` for an integral volume
percentage `vp` (lodash `round` to two decimals is exact here). -/
def volumeString (vp : Nat) : String :=
  let intPart := vp / 100
  let frac := vp % 100
  if frac = 0 then toString intPart
  else if frac % 10 = 0 then toString intPart ++ "." ++ toString (frac / 10)
  else if frac < 10 then toString intPart ++ ".0" ++ toString frac
  else toString intPart ++ "." ++ toString frac

/-- `Math.round` (round half toward positive infinity). -/
def jsRound (x : Rat) : Int := Int.floor (x + 1 / 2)

/-- The `gcd` helper of ffmpeg.ts (iterative Euclid). -/
def gcdJS (a b : Nat) : Nat :=
  if b = 0 then a else gcdJS b (a % b)
termination_by b
decreasing_by exact Nat.mod_lt _ (Nat.pos_of_ne_zero (by assumption))

/-- `prefix.isPrefixOf`-style check over char lists (for `String.includes`). -/
def charsPrefixOf : List Char → List Char → Bool
  | [], _ => true
  | _ :: _, [] => false
  | c :: cs, d :: ds => c == d && charsPrefixOf cs ds

def includesAux (sub : List Char) : List Char → Bool
  | [] => sub.isEmpty
  | c :: cs => charsPrefixOf sub (c :: cs) || includesAux sub cs

/-- `String.prototype.includes`. -/
def strIncludes (s sub : String) : Bool := includesAux sub.toList s.toList

/-- `isDifferentVideoCodec` (ffmpeg.ts). -/
def isDifferentVideoCodec (codec : Option String) (encoder : String) : Bool :=
  if codec = some "mpeg2video" then !(strIncludes encoder "mpeg2")
  else if codec = some "h264" then !(strIncludes encoder "264")
  else if codec = some "hevc" then
    !(strIncludes encoder "265" || strIncludes encoder "hevc")
  else true

/-- `isDifferentAudioCodec` (ffmpeg.ts). -/
def isDifferentAudioCodec (codec : Option String) (encoder : String) : Bool :=
  if codec = some "mp3" then
    !(strIncludes encoder "mp3" || strIncludes encoder "lame")
  else if codec = some "aac" then !(strIncludes encoder "aac")
  else if codec = some "ac3" then !(strIncludes encoder "ac3")
  else if codec = some "flac" then !(strIncludes encoder "flac")
  else true

/-- `isLargerResolution` (ffmpeg.ts). -/
def isLargerResolution (w1 h1 w2 h2 : Nat) : Bool :=
  w1 > w2 || h1 > h2 || w1 % 2 == 1 || h1 % 2 == 1

def STILLIMAGE_SUPPORTED_ENCODERS : List String :=
  ["mpeg2video", "libx264", "h264_videotoolbox"]

/-- The `FfmpegSettings` fields read by the builder. -/
structure FfmpegOpts where
  numThreads : Nat := 2
  enableTranscoding : Bool := true
  maxFPS : Nat := 60
  deinterlaceFilter : String := "none"
  errorScreen : String := "pic"
  errorAudio : String := "silent"
  videoEncoder : String := "libx264"
  audioEncoder : String := "aac"
  videoBitrate : Nat := 2000
  videoBufferSize : Nat := 2000
  audioBitrate : Nat := 192
  audioBufferSize : Nat := 50
  audioChannels : Nat := 2
  audioSampleRate : Nat := 48
  audioVolumePercent : Nat := 100
  normalizeVideoCodec : Bool := false
  normalizeAudioCodec : Bool := false
  normalizeAudio : Bool := false
  normalizeResolution : Bool := false
  scalingAlgorithm : String := "bicubic"
  targetResolutionW : Nat := 1920
  targetResolutionH : Nat := 1080
deriving Repr, DecidableEq

/-- The `ContextChannel` fields read by the builder (constructor and
`spawn`). -/
structure SpawnChannel where
  name : String := ""
  offlinePicture : Option String := none
  offlineSoundtrack : Option String := none
  transcodingTargetResolution : Option (Nat × Nat) := none
  transcodingVideoBitrate : Option Nat := none
  transcodingVideoBufferSize : Option Nat := none
deriving Repr, DecidableEq

/-- The probe stats (`VideoStats`) read by the builder.  `pixelP`/`pixelQ`
and `videoWidth`/`videoHeight` are non-null-asserted in the source. -/
structure VideoStats where
  duration : Option Nat := none
  videoWidth : Nat := 0
  videoHeight : Nat := 0
  videoFramerate : Option Rat := none
  videoScanType : Option String := none
  videoCodec : Option String := none
  audioCodec : Option String := none
  audioIndex : Option String := none
  pixelP : Nat := 1
  pixelQ : Nat := 1
  audioOnly : Bool := false
  placeholderImage : Option String := none
  anamorphic : Bool := false
deriving Repr, DecidableEq

/-- The first argument of `spawn`: a stream URL, or the error descriptor
`\x7b errorTitle, subtitle \x7d`. -/
inductive StreamSource
  | url (s : String)
  | errDesc (errorTitle : String) (subtitle : Option String)
deriving Repr, DecidableEq

def StreamSource.isUrl : StreamSource → Bool
  | .url _ => true
  | .errDesc _ _ => false

def StreamSource.errTitle : StreamSource → Option String
  | .url _ => none
  | .errDesc t _ => some t

def StreamSource.sub : StreamSource → Option String
  | .url _ => none
  | .errDesc _ s => s

/-- The watermark record consumed by `spawn` (`@tunarr/types`). -/
structure SpawnWatermark where
  url : Option String := none
  width : Rat := 0
  verticalMargin : Rat := 0
  horizontalMargin : Rat := 0
  duration : Int := 0
  position : WatermarkPosition := .bottomRight
  fixedSize : Bool := false
  animated : Bool := false
deriving Repr, DecidableEq

/-- The mutable per-instance fields of the `FFMPEG` class that the builder
reads (set by the constructor). -/
structure SpawnState where
  opts : FfmpegOpts
  channel : SpawnChannel
  wantedW : Nat
  wantedH : Nat
  apad : Bool
  audioChannelsSampleRate : Bool
  ensureResolution : Bool
  volumePercent : Nat
  audioOnly : Bool := false
  alignAudio : Bool := false
deriving Repr, DecidableEq

/-- The `FFMPEG` constructor: disables all normalisation when transcoding
is off (forcing `errorScreen = kill` and `maxFPS = 120`), applies the
channel's transcoding overrides, and initialises the mutable fields. -/
def mkFFMPEG (opts0 : FfmpegOpts) (channel : SpawnChannel)
    (audioOnly : Bool) : SpawnState :=
  let opts1 :=
    if opts0.enableTranscoding = false then
      { opts0 with
        normalizeAudio := false, normalizeAudioCodec := false
        normalizeVideoCodec := false, errorScreen := "kill"
        normalizeResolution := false, audioVolumePercent := 100
        maxFPS := 120 }
    else opts0
  let targetResolution := channel.transcodingTargetResolution.getD
    (opts0.targetResolutionW, opts0.targetResolutionH)
  let opts2 :=
    match channel.transcodingVideoBitrate with
    | some vb => if vb ≠ 0 then { opts1 with videoBitrate := vb } else opts1
    | none => opts1
  let opts3 :=
    match channel.transcodingVideoBufferSize with
    | some vbs =>
      if vbs ≠ 0 then { opts2 with videoBufferSize := vbs } else opts2
    | none => opts2
  { opts := opts3
    channel := channel
    wantedW := targetResolution.1
    wantedH := targetResolution.2
    apad := opts3.normalizeAudio
    audioChannelsSampleRate := opts3.normalizeAudio
    ensureResolution := opts3.normalizeResolution
    volumePercent := opts3.audioVolumePercent
    audioOnly := audioOnly }

/-- The argument-list construction of `FFMPEG.spawn(streamUrl, streamStats,
startTime, duration, limitRead, watermark)`: a pure function of the
instance state and the call arguments.  `none` models the TypeError thrown
when `streamStats` is undefined (`streamStats!.videoWidth`).  The sections
below follow the source top to bottom. -/
def spawnArgs (port : Nat) (databaseDirectory : String) (st : SpawnState)
    (streamUrl : StreamSource) (streamStats : Option VideoStats)
    (startTime : Option Nat) (duration0 : Option String) (limitRead : Bool)
    (watermark : Option SpawnWatermark) : Option (List String) :=
  match streamStats with
  | none => none
  | some stats =>
    let opts := st.opts
    let numThreads := opts.numThreads
    let args : List String :=
      ["-threads", toString numThreads, "-fflags", "+genpts+discardcorrupt+igndts"]
    let args :=
      if limitRead = true ∧ (st.audioOnly ≠ true ∨ streamUrl.isUrl = true)
      then args ++ ["-re"] else args
    let args :=
      match startTime with
      | some ss => args ++ ["-ss", toString ss]
      | none => args
    let audioIndex := stats.audioIndex.getD "undefined"
    -- input bookkeeping (`videoFile = inputFiles++; audioFile = videoFile`)
    let (args, videoFile, audioFile, inputFiles) :=
      match streamUrl with
      | .url s =>
        if s ≠ "" then (args ++ ["-i", s], (0 : Int), (0 : Int), (1 : Nat))
        else (args, -1, -1, 0)
      | .errDesc _ _ => (args, -1, -1, 0)
    let doOverlay := watermark.isSome
    let iW := stats.videoWidth
    let iH := stats.videoHeight
    let currentVideo := "[video]"
    let currentAudio := "[audio]"
    let videoIndex := "v"
    let audioComplex := s!";[{audioFile}:{audioIndex}]anull[audio]"
    let videoComplex := s!";[{videoFile}:{videoIndex}]null[video]"
    -- frame-rate cap
    let maxFPS := opts.maxFPS
    let (videoComplex, currentVideo) :=
      if ((maxFPS : Rat) + 1 / 1000000) ≤ stats.videoFramerate.getD 0 then
        (videoComplex ++ s!";{currentVideo}fps={maxFPS}[fpchange]", "[fpchange]")
      else (videoComplex, currentVideo)
    -- deinterlace
    let deinterlaceFilter := opts.deinterlaceFilter
    let (videoComplex, currentVideo) :=
      if stats.videoScanType = some "interlaced" ∧ deinterlaceFilter ≠ "none"
      then
        (videoComplex ++ s!";{currentVideo}{deinterlaceFilter}[deinterlaced]",
         "[deinterlaced]")
      else (videoComplex, currentVideo)
    -- synthetic input generation (error/offline screens, audio-only)
    let isEmptyUrl : Bool := match streamUrl with
      | .url s => s == ""
      | .errDesc _ _ => false
    let synthetic : Bool :=
      !streamUrl.isUrl || isEmptyUrl || stats.audioOnly
    let durOpt := jsOptNat stats.duration
    let durstr := s!"duration={durOpt}ms"
    let (args, videoComplex, audioComplex, currentVideo, currentAudio, iW, iH,
         apad, audioChannelsSampleRate, doOverlay, inputFiles, duration,
         useStillImageTune, volumePercent) :=
      if synthetic then
        let doOverlay := false
        let apad := false
        let audioChannelsSampleRate := true
        let iW := st.wantedW
        let iH := st.wantedH
        let (args, videoComplex, inputFiles, duration, useStillImageTune) :=
          if st.audioOnly ≠ true then
            let args := args ++ ["-r", "24"]
            let defaultOfflinePic :=
              s!"http://localhost:{port}/images/generic-offline-screen.png"
            let errorPicturePath :=
              s!"http://localhost:{port}/images/generic-error-screen.png"
            let pic : Option String :=
              if streamUrl.isUrl = true ∧ stats.audioOnly = true then
                stats.placeholderImage
              else if streamUrl.isUrl = false ∧
                  streamUrl.errTitle = some "offline" then
                some (st.channel.offlinePicture.getD defaultOfflinePic)
              else if opts.errorScreen = "pic" then some errorPicturePath
              else none
            match pic with
            | some p =>
              if p ≠ "" then
                let args := args ++ ["-i", p]
                let duration :=
                  if duration0 = none ∧ stats.duration.isSome then
                    some s!"{jsOptNat (stats.duration.map (· + 150))}ms"
                  else duration0
                let videoComplex :=
                  s!";[{inputFiles}:0]format=yuv420p[formatted]" ++
                  s!";[formatted]scale=w={iW}:h={iH}:force_original_aspect_ratio=1[scaled]" ++
                  s!";[scaled]pad={iW}:{iH}:(ow-iw)/2:(oh-ih)/2[padded]" ++
                  ";[padded]loop=loop=-1:size=1:start=0[looped]" ++
                  ";[looped]realtime[videox]"
                let useStillImageTune : Bool :=
                  STILLIMAGE_SUPPORTED_ENCODERS.contains opts.videoEncoder
                (args, videoComplex, inputFiles + 1, duration,
                 useStillImageTune)
              else if opts.errorScreen = "static" then
                (args ++ ["-f", "lavfi", "-i", "nullsrc=s=64x36"],
                 s!";geq=random(1)*255:128:128[videoz];[videoz]scale={iW}:{iH}[videoy];[videoy]realtime[videox]",
                 inputFiles + 1, duration0, false)
              else if opts.errorScreen = "testsrc" then
                (args ++ ["-f", "lavfi", "-i", s!"testsrc=size={iW}x{iH}"],
                 ";realtime[videox]", inputFiles + 1, duration0, false)
              else if opts.errorScreen = "text" ∧ streamUrl.isUrl = false then
                let sz2 := (iH + 32) / 33
                let sz1 := (sz2 * 3 + 1) / 2
                let sz3 := 2 * sz2
                let et := (streamUrl.errTitle).getD "undefined"
                let sub := (streamUrl.sub).getD "undefined"
                (args ++ ["-f", "lavfi", "-i", s!"color=c=black:s={iW}x{iH}"],
                 s!";drawtext=fontfile={databaseDirectory}/font.ttf:fontsize={sz1}:fontcolor=white:x=(w-text_w)/2:y=(h-text_h)/2:text=" ++
                   sqChar ++ et ++ sqChar ++
                 s!",drawtext=fontfile={databaseDirectory}/font.ttf:fontsize={sz2}:fontcolor=white:x=(w-text_w)/2:y=(h+text_h+{sz3})/2:text=" ++
                   sqChar ++ sub ++ sqChar ++
                 "[videoy];[videoy]realtime[videox]",
                 inputFiles + 1, duration0, false)
              else
                (args ++ ["-f", "lavfi", "-i", s!"color=c=black:s={iW}x{iH}"],
                 ";realtime[videox]", inputFiles + 1, duration0, false)
            | none =>
              if opts.errorScreen = "static" then
                (args ++ ["-f", "lavfi", "-i", "nullsrc=s=64x36"],
                 s!";geq=random(1)*255:128:128[videoz];[videoz]scale={iW}:{iH}[videoy];[videoy]realtime[videox]",
                 inputFiles + 1, duration0, false)
              else if opts.errorScreen = "testsrc" then
                (args ++ ["-f", "lavfi", "-i", s!"testsrc=size={iW}x{iH}"],
                 ";realtime[videox]", inputFiles + 1, duration0, false)
              else if opts.errorScreen = "text" ∧ streamUrl.isUrl = false then
                let sz2 := (iH + 32) / 33
                let sz1 := (sz2 * 3 + 1) / 2
                let sz3 := 2 * sz2
                let et := (streamUrl.errTitle).getD "undefined"
                let sub := (streamUrl.sub).getD "undefined"
                (args ++ ["-f", "lavfi", "-i", s!"color=c=black:s={iW}x{iH}"],
                 s!";drawtext=fontfile={databaseDirectory}/font.ttf:fontsize={sz1}:fontcolor=white:x=(w-text_w)/2:y=(h-text_h)/2:text=" ++
                   sqChar ++ et ++ sqChar ++
                 s!",drawtext=fontfile={databaseDirectory}/font.ttf:fontsize={sz2}:fontcolor=white:x=(w-text_w)/2:y=(h+text_h+{sz3})/2:text=" ++
                   sqChar ++ sub ++ sqChar ++
                 "[videoy];[videoy]realtime[videox]",
                 inputFiles + 1, duration0, false)
              else
                (args ++ ["-f", "lavfi", "-i", s!"color=c=black:s={iW}x{iH}"],
                 ";realtime[videox]", inputFiles + 1, duration0, false)
          else (args, videoComplex, inputFiles, duration0, false)
        -- synthetic audio
        let (args, audioComplex, currentAudio, inputFiles, volumePercent) :=
          if streamUrl.isUrl = false then
            let audioComplex := s!";aevalsrc=0:{durstr}[audioy]"
            let (args, audioComplex, inputFiles, volumePercent) :=
              if streamUrl.errTitle = some "offline" then
                match st.channel.offlineSoundtrack with
                | some strack =>
                  if strack ≠ "" then
                    (args ++ ["-i", strack],
                     s!";[{inputFiles}:a]aloop=loop=-1:size=2147483647[audioy]",
                     inputFiles + 1, st.volumePercent)
                  else (args, audioComplex, inputFiles, st.volumePercent)
                | none => (args, audioComplex, inputFiles, st.volumePercent)
              else if opts.errorAudio = "whitenoise" ∨
                  (¬ (opts.errorAudio = "sine") ∧ st.audioOnly = true) then
                (args, s!";aevalsrc=random(0):{durstr}[audioy]", inputFiles,
                 min 70 st.volumePercent)
              else if opts.errorAudio = "sine" then
                (args, s!";sine=f=440:{durstr}[audioy]", inputFiles,
                 min 70 st.volumePercent)
              else (args, audioComplex, inputFiles, st.volumePercent)
            let args :=
              if st.audioOnly ≠ true then args ++ ["-pix_fmt", "yuv420p"]
              else args
            let audioComplex := audioComplex ++ ";[audioy]arealtime[audiox]"
            (args, audioComplex, "[audiox]", inputFiles, volumePercent)
          else (args, audioComplex, currentAudio, inputFiles, st.volumePercent)
        (args, videoComplex, audioComplex, "[videox]", currentAudio, iW, iH,
         apad, audioChannelsSampleRate, doOverlay, inputFiles, duration,
         useStillImageTune, volumePercent)
      else
        (args, videoComplex, audioComplex, currentVideo, currentAudio, iW, iH,
         st.apad, st.audioChannelsSampleRate, doOverlay, inputFiles,
         duration0, false, st.volumePercent)
    -- watermark input
    let (args, overlayFile, inputFiles, ensureResolution) :=
      match watermark with
      | some wm =>
        match wm.url with
        | some u =>
          if doOverlay = true then
            let args :=
              if wm.animated = true then args ++ ["-ignore_loop", "0"]
              else args
            (args ++ ["-i", u], (inputFiles : Int), inputFiles + 1, true)
          else (args, (-1 : Int), inputFiles, st.ensureResolution)
        | none => (args, (-1 : Int), inputFiles, st.ensureResolution)
      | none => (args, (-1 : Int), inputFiles, st.ensureResolution)
    -- resolution fix (scale + black bars + setsar)
    let beforeSizeChange := currentVideo
    let algo := opts.scalingAlgorithm
    let wantedW := st.wantedW
    let wantedH := st.wantedH
    let (videoComplex, currentVideo, wantedW, wantedH, iW, iH) :=
      if stats.audioOnly ≠ true ∧
          ((ensureResolution = true ∧
            (stats.anamorphic = true ∨ iW ≠ wantedW ∨ iH ≠ wantedH)) ∨
           isLargerResolution iW iH wantedW wantedH = true) then
        let p0 := iW * stats.pixelP
        let q0 := iH * stats.pixelQ
        let g := gcdJS q0 p0
        let p := p0 / g
        let q := q0 / g
        let hypotheticalW1 := wantedW
        let hypotheticalH1 := (hypotheticalW1 * q) / p
        let hypotheticalH2 := wantedH
        let hypotheticalW2 := (wantedH * p) / q
        let (cw, ch) :=
          if hypotheticalH1 ≤ wantedH then (hypotheticalW1, hypotheticalH1)
          else (hypotheticalW2, hypotheticalH2)
        let videoComplex :=
          videoComplex ++ s!";{currentVideo}scale={cw}:{ch}:flags={algo}[scaled]"
        let currentVideo := "scaled"
        let (wantedW, wantedH) :=
          if ensureResolution = true then (wantedW, wantedH)
          else if cw % 2 = 1 ∨ ch % 2 = 1 then (cw + cw % 2, ch + ch % 2)
          else (wantedW, wantedH)
        let (videoComplex, currentVideo) :=
          if wantedW ≠ cw ∨ wantedH ≠ ch then
            (videoComplex ++
              s!";[{currentVideo}]pad={wantedW}:{wantedH}:(ow-iw)/2:(oh-ih)/2[blackpadded]",
             "blackpadded")
          else (videoComplex, currentVideo)
        let name :=
          if ensureResolution = false ∧ beforeSizeChange ≠ "[fpchange]" then
            "minsiz"
          else "siz"
        let videoComplex := videoComplex ++ s!";[{currentVideo}]setsar=1[{name}]"
        let currentVideo := s!"[{name}]"
        (videoComplex, currentVideo, wantedW, wantedH, wantedW, wantedH)
      else (videoComplex, currentVideo, wantedW, wantedH, iW, iH)
    -- channel watermark overlay
    let (videoComplex, currentVideo) :=
      match watermark with
      | some wm =>
        if doOverlay = true ∧ st.audioOnly = false then
          let w := jsRound (wm.width * iW / 100)
          let horz := jsRound (wm.horizontalMargin * iW / 100)
          let vert := jsRound (wm.verticalMargin * iH / 100)
          let icnDur :=
            if 0 < wm.duration then
              s!":enable=" ++ sqChar ++ s!"between(t,0,{wm.duration})" ++ sqChar
            else ""
          let waterVideo := s!"[{overlayFile}:v]"
          let (videoComplex, waterVideo) :=
            if wm.fixedSize = false then
              (videoComplex ++ s!";{waterVideo}scale={w}:-1[icn]", "[icn]")
            else (videoComplex, waterVideo)
          let position :=
            match wm.position with
            | .topLeft => s!"x={horz}:y={vert}"
            | .topRight => s!"x=W-w-{horz}:y={vert}"
            | .bottomLeft => s!"x={horz}:y=H-h-{vert}"
            | .bottomRight => s!"x=W-w-{horz}:y=H-h-{vert}"
          let overlayShortest := if wm.animated = true then "shortest=1:" else ""
          (videoComplex ++
            s!";{currentVideo}{waterVideo}overlay={overlayShortest}{position}{icnDur}[comb]",
           "[comb]")
        else (videoComplex, currentVideo)
      | none => (videoComplex, currentVideo)
    -- volume
    let (audioComplex, currentAudio) :=
      if volumePercent ≠ 100 then
        let f := volumeString volumePercent
        (audioComplex ++ s!";{currentAudio}volume={f}[boosted]", "[boosted]")
      else (audioComplex, currentAudio)
    -- apad (align audio); the `else if audioChannelsSampleRate` assignment
    -- of `transcodeAudio` in the source is immediately overwritten below
    let (audioComplex, currentAudio) :=
      if apad = true ∧ st.audioOnly ≠ true then
        (audioComplex ++ s!";{currentAudio}apad=whole_dur={durOpt}ms[padded]",
         "[padded]")
      else (audioComplex, currentAudio)
    -- codec decisions
    let transcodeVideo0 : Bool := opts.normalizeVideoCodec &&
      isDifferentVideoCodec stats.videoCodec opts.videoEncoder
    let transcodeAudio0 : Bool := opts.normalizeAudioCodec &&
      isDifferentAudioCodec stats.audioCodec opts.audioEncoder
    let filterComplex := ""
    let currentVideo :=
      if transcodeVideo0 = false ∧ currentVideo = "[minsiz]" then
        beforeSizeChange
      else currentVideo
    let (transcodeVideo, filterComplex, currentVideo) :=
      if st.audioOnly ≠ true then
        if currentVideo ≠ "[video]" then
          (true, filterComplex ++ videoComplex, currentVideo)
        else (transcodeVideo0, filterComplex, s!"{videoFile}:{videoIndex}")
      else (transcodeVideo0, filterComplex, currentVideo)
    let (transcodeAudio, filterComplex, currentAudio) :=
      if currentAudio ≠ "[audio]" then
        (true, filterComplex ++ audioComplex, currentAudio)
      else (transcodeAudio0, filterComplex, s!"{audioFile}:{audioIndex}")
    let args :=
      if filterComplex ≠ "" then
        let args := args ++ ["-filter_complex", filterComplex.drop 1]
        if st.alignAudio = true then args ++ ["-shortest"] else args
      else args
    let args :=
      if st.audioOnly ≠ true then
        let cv := if transcodeVideo then opts.videoEncoder else "copy"
        let args :=
          args ++ ["-map", currentVideo, "-c:v", cv, "-sc_threshold",
                   "1000000000"]
        if useStillImageTune = true then args ++ ["-tune", "stillimage"]
        else args
      else args
    let args := args ++ ["-map", currentAudio, "-flags", "cgop+ilme"]
    let videoBitrate := opts.videoBitrate
    let videoBufferSize := opts.videoBufferSize
    let args :=
      if transcodeVideo = true ∧ st.audioOnly ≠ true then
        args ++ ["-b:v", s!"{videoBitrate}k", "-maxrate:v",
                 s!"{videoBitrate}k", "-bufsize:v", s!"{videoBufferSize}k"]
      else args
    let audioBitrate := opts.audioBitrate
    let audioBufferSize := opts.audioBufferSize
    let audioChannels := opts.audioChannels
    let audioSampleRate := opts.audioSampleRate
    let args :=
      if transcodeAudio = true then
        let args :=
          args ++ ["-b:a", s!"{audioBitrate}k", "-maxrate:a",
                   s!"{audioBitrate}k", "-bufsize:a", s!"{audioBufferSize}k"]
        if audioChannelsSampleRate = true then
          args ++ ["-ac", s!"{audioChannels}", "-ar", s!"{audioSampleRate}k"]
        else args
      else args
    let ca := if transcodeAudio then opts.audioEncoder else "copy"
    let args :=
      args ++ ["-c:a", ca, "-map_metadata", "-1", "-movflags", "+faststart",
               "-muxdelay", "0", "-muxpreload", "0"]
    let channelName := st.channel.name
    let args :=
      args ++ ["-metadata", "service_provider=\"tunarr\"", "-metadata",
               s!"service_name=\"{channelName}\""]
    let args :=
      match duration with
      | some d => args ++ ["-t", d]
      | none => args
    some (args ++ ["-f", "mpegts", "pipe:1"])

/-- All inputs of one encoder-plan construction: the settings and channel
(fed through the `FFMPEG` constructor), the server globals, and the
arguments of `spawn`. -/
structure SpawnInput where
  port : Nat
  databaseDirectory : String
  opts : FfmpegOpts
  channel : SpawnChannel
  audioOnly : Bool
  streamUrl : StreamSource
  streamStats : Option VideoStats
  startTime : Option Nat
  duration : Option String
  limitRead : Bool
  watermark : Option SpawnWatermark
deriving Repr, DecidableEq

/-- Constructor plus `spawn` argument construction as one pure function. -/
def buildSpawnArgs (inp : SpawnInput) : Option (List String) :=
  spawnArgs inp.port inp.databaseDirectory
    (mkFFMPEG inp.opts inp.channel inp.audioOnly)
    inp.streamUrl inp.streamStats inp.startTime inp.duration inp.limitRead
    inp.watermark

/-- C6: the encoder plan builder is deterministic — two invocations with
identical inputs (stream source or error descriptor, probe stats, start
time, duration, channel settings, ffmpeg settings, and watermark) produce
byte-identical argument lists.  The embedding `buildSpawnArgs` is a pure
function of `SpawnInput`, so equal inputs give equal arglists. -/
theorem encoder_args_deterministic (a b : SpawnInput) (h : a = b) :
    buildSpawnArgs a = buildSpawnArgs b := by
  rw [h]

/-- Witness for `encoder_args_deterministic` at a concrete input. -/
theorem encoder_args_deterministic_witness :
    buildSpawnArgs
      { port := 8000, databaseDirectory := "/db", opts := {}
        channel := { name := "ch1" }, audioOnly := false
        streamUrl := .url "http://example/stream"
        streamStats := some { videoWidth := 1280, videoHeight := 720 }
        startTime := some 5, duration := some "60000ms", limitRead := true
        watermark := none } =
    buildSpawnArgs
      { port := 8000, databaseDirectory := "/db", opts := {}
        channel := { name := "ch1" }, audioOnly := false
        streamUrl := .url "http://example/stream"
        streamStats := some { videoWidth := 1280, videoHeight := 720 }
        startTime := some 5, duration := some "60000ms", limitRead := true
        watermark := none } :=
  encoder_args_deterministic _ _ rfl
